import Mathlib

/-!
Verification of `torch/csrc/lazy/core/lazy_mode.cpp` (the scoped lazy-mode
controller of the lazy tensor core).

The file shallow-embeds the thread-local state the C++ file manipulates
(the `_lazy_mode_nests` counter and the TLS dispatch-key bits it sets or
excludes), the operations `LazyModeEnter`, `LazyModeExit`, `in_lazy_mode`,
`PrepareTensorForMetaKernel` and `unlazy_handler`, and proves the spec's
properties about them.  External collaborators (the graph executor's
`SyncLiveTensorsGraph`, `atenDeviceToBackendDevice`, the LTC tensor
wrapping and `ts_eager_fallback`) are modelled as opaque data or as
function parameters; calls into them are recorded as events so that
"called exactly once with these arguments" properties can be stated.
-/

namespace TorchLazy

/-- Device types of `c10::Device`; `lazy` embeds `c10::kLazy`, the other
constructors stand for the eager device types. -/
inductive DeviceType where
  | lazy
  | cpu
  | cuda
  deriving DecidableEq, Repr

/-- Shallow embedding of `c10::Device`: a device type plus an optional index
(`none` when `has_index()` is false). -/
structure Device where
  dtype : DeviceType
  index : Option Nat
  deriving DecidableEq, Repr

/-- The two dispatch keys `lazy_mode.cpp` manipulates. -/
inductive DispatchKey where
  | Lazy
  | TESTING_ONLY_GenericWrapper
  deriving DecidableEq, Repr

/-- `GetUnlazyDispatchKey` from the source: returns
`c10::DispatchKey::TESTING_ONLY_GenericWrapper`. -/
def GetUnlazyDispatchKey : DispatchKey := DispatchKey.TESTING_ONLY_GenericWrapper

/-- The thread-local state read or written by `lazy_mode.cpp`: the
`_lazy_mode_nests` counter, and the included/excluded TLS bits of the two
dispatch keys the file touches (`c10::impl::LocalDispatchKeySet` restricted
to those keys). -/
structure ThreadState where
  nests : Nat
  lazyIncluded : Bool
  unlazyIncluded : Bool
  lazyExcluded : Bool
  unlazyExcluded : Bool
  deriving DecidableEq, Repr

/-- The state of a freshly started thread: `thread_local size_t _nest_counter{0}`
and a default TLS key set (nothing included or excluded). -/
def initState : ThreadState := ⟨0, false, false, false, false⟩

/-- `c10::impl::tls_set_dispatch_key_included`, restricted to the two keys of
the model. -/
def tls_set_dispatch_key_included (st : ThreadState) (k : DispatchKey) (b : Bool) :
    ThreadState :=
  match k with
  | DispatchKey.Lazy => { st with lazyIncluded := b }
  | DispatchKey.TESTING_ONLY_GenericWrapper => { st with unlazyIncluded := b }

/-- Setting the TLS excluded bit of a key, as `c10::impl::ExcludeDispatchKeyGuard`
does on construction (and undoes on destruction). -/
def tls_set_dispatch_key_excluded (st : ThreadState) (k : DispatchKey) (b : Bool) :
    ThreadState :=
  match k with
  | DispatchKey.Lazy => { st with lazyExcluded := b }
  | DispatchKey.TESTING_ONLY_GenericWrapper => { st with unlazyExcluded := b }

/-- Modelled from the spec: `torch::lazy::atenDeviceToBackendDevice` (defined in
`backend_device.cpp`, outside this file) resolves a generic device to "the
backend's canonical device representation"; the model keeps the conversion
injective and otherwise opaque. -/
structure BackendDevice where
  aten : Device
  deriving DecidableEq, Repr

/-- Modelled from the spec: the conversion itself, an opaque injection. -/
def atenDeviceToBackendDevice (d : Device) : BackendDevice := ⟨d⟩

/-- Observable calls Enter/Exit make into TLS and into the external graph
executor.  `sync dev wait` records
`LazyGraphExecutor::Get()->SyncLiveTensorsGraph(&dev, {dev}, wait)`. -/
inductive Event where
  | setIncluded (k : DispatchKey) (b : Bool)
  | sync (dev : BackendDevice) (wait : Bool)
  deriving DecidableEq, Repr

/-- Recognizer for `Event.sync` events. -/
def Event.isSync : Event → Bool
  | Event.sync _ _ => true
  | _ => false

/-- The error raised by `TORCH_CHECK(_lazy_mode_nests() > 0, ...)`. -/
inductive LazyErr where
  | scopeUnderflow
  deriving DecidableEq, Repr

/-- `_lazy_mode_inc`: post-increments the counter, so it returns the depth
prior to the increment together with the updated state. -/
def _lazy_mode_inc (st : ThreadState) : Nat × ThreadState :=
  (st.nests, { st with nests := st.nests + 1 })

/-- `_lazy_mode_dec`: checks `_lazy_mode_nests() > 0` before any mutation
(raising on underflow), then pre-decrements, returning the new depth. -/
def _lazy_mode_dec (st : ThreadState) : Except LazyErr (Nat × ThreadState) :=
  if st.nests > 0 then
    Except.ok (st.nests - 1, { st with nests := st.nests - 1 })
  else
    Except.error LazyErr.scopeUnderflow

/-- `in_lazy_mode`: `_lazy_mode_nests() > 0`. -/
def in_lazy_mode (st : ThreadState) : Bool := decide (st.nests > 0)

/-- `LazyModeEnter(device)`: bump the counter; on the outermost entry
(prior depth 0) include the Lazy dispatch key.  Returns the new state and
the list of observable events. -/
def LazyModeEnter (device : Device) (st : ThreadState) : ThreadState × List Event :=
  let r := _lazy_mode_inc st
  if r.1 = 0 then
    (tls_set_dispatch_key_included r.2 DispatchKey.Lazy true,
     [Event.setIncluded DispatchKey.Lazy true])
  else
    (r.2, [])

/-- `LazyModeExit(device)`: decrement (raising `scopeUnderflow` at depth 0);
on the outermost exit (new depth 0) clear the Lazy dispatch key and call
`SyncLiveTensorsGraph` on the backend device of `device` with `wait=true`. -/
def LazyModeExit (device : Device) (st : ThreadState) :
    Except LazyErr (ThreadState × List Event) :=
  match _lazy_mode_dec st with
  | Except.error e => Except.error e
  | Except.ok (depth, st1) =>
    if depth = 0 then
      let st2 := tls_set_dispatch_key_included st1 DispatchKey.Lazy false
      let backend_device := atenDeviceToBackendDevice device
      Except.ok (st2,
        [Event.setIncluded DispatchKey.Lazy false, Event.sync backend_device true])
    else
      Except.ok (st1, [])

/-- A call made by user code on one thread. -/
inductive Op where
  | enter (device : Device)
  | exit (device : Device)
  deriving DecidableEq, Repr

/-- One call, with its events.  A failing Exit is fatal in the C++ code
(`TORCH_CHECK` throws before anything is mutated), so the state at the point
of failure is the unchanged input state and no event has been emitted. -/
def stepT (st : ThreadState) (op : Op) : ThreadState × List Event :=
  match op with
  | Op.enter d => LazyModeEnter d st
  | Op.exit d =>
    match LazyModeExit d st with
    | Except.ok r => r
    | Except.error _ => (st, [])

theorem stepT_enter_zero (d : Device) (st : ThreadState) (h : st.nests = 0) :
    stepT st (Op.enter d) =
      ({ st with nests := st.nests + 1, lazyIncluded := true },
       [Event.setIncluded DispatchKey.Lazy true]) := by
  simp [stepT, LazyModeEnter, _lazy_mode_inc, tls_set_dispatch_key_included, h]

theorem stepT_enter_pos (d : Device) (st : ThreadState) (h : st.nests ≠ 0) :
    stepT st (Op.enter d) = ({ st with nests := st.nests + 1 }, []) := by
  simp [stepT, LazyModeEnter, _lazy_mode_inc, h]

theorem stepT_exit_zero (d : Device) (st : ThreadState) (h : st.nests = 0) :
    stepT st (Op.exit d) = (st, []) := by
  simp [stepT, LazyModeExit, _lazy_mode_dec, h]

theorem stepT_exit_one (d : Device) (st : ThreadState) (h : st.nests = 1) :
    stepT st (Op.exit d) =
      ({ st with nests := 0, lazyIncluded := false },
       [Event.setIncluded DispatchKey.Lazy false,
        Event.sync (atenDeviceToBackendDevice d) true]) := by
  simp [stepT, LazyModeExit, _lazy_mode_dec, tls_set_dispatch_key_included, h]

theorem stepT_exit_many (d : Device) (st : ThreadState) (h : 1 < st.nests) :
    stepT st (Op.exit d) = ({ st with nests := st.nests - 1 }, []) := by
  have h0 : st.nests > 0 := lt_trans Nat.zero_lt_one h
  have h1 : st.nests - 1 ≠ 0 := by omega
  simp [stepT, LazyModeExit, _lazy_mode_dec, h0, h1]

/-- Claim C2: in any thread state, a single call emits a sync into the graph
executor exactly when it is an Exit taken at depth 1 (the 1 to 0 transition),
and then it is exactly one call, on the backend device of the device passed
to that Exit, with `wait=true`; an Enter, a nested Exit and an underflowing
Exit emit no sync.  Quantified over every state, this covers every sequence
of Enter/Exit calls. -/
theorem sync_exactly_on_outermost_exit (st : ThreadState) (op : Op) :
    ((stepT st op).2.filter Event.isSync) =
      (match op with
       | Op.enter _ => []
       | Op.exit d =>
         if st.nests = 1 then [Event.sync (atenDeviceToBackendDevice d) true]
         else []) := by
  match op with
  | Op.enter d =>
    rcases Nat.eq_zero_or_pos st.nests with h0 | h0
    · rw [stepT_enter_zero d st h0]; simp [Event.isSync]
    · rw [stepT_enter_pos d st (Nat.pos_iff_ne_zero.mp h0)]; simp
  | Op.exit d =>
    rcases Nat.lt_trichotomy st.nests 1 with h0 | h0 | h0
    · have h0 : st.nests = 0 := by omega
      rw [stepT_exit_zero d st h0]
      simp [h0]
    · rw [stepT_exit_one d st h0]
      simp [h0, Event.isSync]
    · rw [stepT_exit_many d st h0]
      have : st.nests ≠ 1 := by omega
      simp [this]

/-- Claim C3: calling Exit on a thread whose depth counter is 0 fails with the
scope-underflow error, and the thread state is left unchanged with no TLS
write and no sync performed (the check precedes any mutation). -/
theorem exit_underflow (d : Device) (st : ThreadState) (h : st.nests = 0) :
    LazyModeExit d st = Except.error LazyErr.scopeUnderflow
    ∧ stepT st (Op.exit d) = (st, []) := by
  constructor
  · simp [LazyModeExit, _lazy_mode_dec, h]
  · exact stepT_exit_zero d st h

/-- Witness for C3 at the initial thread state. -/
theorem exit_underflow_spot :
    LazyModeExit ⟨DeviceType.cpu, none⟩ initState = Except.error LazyErr.scopeUnderflow
    ∧ stepT initState (Op.exit ⟨DeviceType.cpu, none⟩) = (initState, []) :=
  exit_underflow ⟨DeviceType.cpu, none⟩ initState (by decide)

/-- Claim C10: Enter never reads its device argument — from any thread state,
`LazyModeEnter d1` and `LazyModeEnter d2` produce the same state and events —
and an Exit that is not the outermost one (depth other than 1, including the
underflow case) does not read its device argument either. -/
theorem device_argument_noninterference (st : ThreadState) (d1 d2 : Device) :
    LazyModeEnter d1 st = LazyModeEnter d2 st
    ∧ (st.nests ≠ 1 → LazyModeExit d1 st = LazyModeExit d2 st) := by
  constructor
  · rfl
  · intro h
    rcases Nat.eq_zero_or_pos st.nests with h0 | h0
    · simp [LazyModeExit, _lazy_mode_dec, h0]
    · have h1 : st.nests - 1 ≠ 0 := by omega
      simp [LazyModeExit, _lazy_mode_dec, h0, h1]

/-- Witness for C10 at a nested state of depth 2 and two distinct devices. -/
theorem device_argument_noninterference_spot :
    LazyModeEnter ⟨DeviceType.cpu, none⟩ (⟨2, true, false, false, false⟩ : ThreadState)
      = LazyModeEnter ⟨DeviceType.cuda, some 3⟩ (⟨2, true, false, false, false⟩ : ThreadState)
    ∧ LazyModeExit ⟨DeviceType.cpu, none⟩ (⟨2, true, false, false, false⟩ : ThreadState)
      = LazyModeExit ⟨DeviceType.cuda, some 3⟩ (⟨2, true, false, false, false⟩ : ThreadState) :=
  ⟨(device_argument_noninterference ⟨2, true, false, false, false⟩
      ⟨DeviceType.cpu, none⟩ ⟨DeviceType.cuda, some 3⟩).1,
   (device_argument_noninterference ⟨2, true, false, false, false⟩
      ⟨DeviceType.cpu, none⟩ ⟨DeviceType.cuda, some 3⟩).2 (by decide)⟩

/-- Shallow embedding of the `at::Tensor` values this file inspects: either an
eager tensor with its device, or a lazy (deferred) tensor wrapping an eager
payload and bound to a backend device.  The deferred constructor is produced
only by the LTC wrapping modelled in `CreateAtenFromLtcTensor_wrap`. -/
inductive Tensor where
  | eager (data : Nat) (dev : Device)
  | deferredOf (payload : Tensor) (boundDevice : Device)
  deriving DecidableEq, Repr

/-- `tensor.device()`: an eager tensor reports its own device; a tensor backed
by an LTC tensor reports the lazy device type with the bound device's index. -/
def Tensor.device : Tensor → Device
  | Tensor.eager _ d => d
  | Tensor.deferredOf _ bd => ⟨DeviceType.lazy, bd.index⟩

/-- Modelled from the spec:
`CreateAtenFromLtcTensor(GetOrCreateLtcTensor(tensor, backendDevice))` — both
functions live in the lazy tensor core outside this file; the spec says this
"constructs a new DeferredValue bound to `device`, whose underlying resolved
payload is `value`". -/
def CreateAtenFromLtcTensor_wrap (tensor : Tensor) (bd : BackendDevice) : Tensor :=
  Tensor.deferredOf tensor bd.aten

/-- The error raised by a failing `TORCH_INTERNAL_ASSERT`. -/
inductive PrepErr where
  | internalAssert
  deriving DecidableEq, Repr

/-- The two `LOG(WARNING)` messages `PrepareTensorForMetaKernel` can emit. -/
inductive PrepWarn where
  | skipMove
  | move
  deriving DecidableEq, Repr

/-- `PrepareTensorForMetaKernel(tensor, lazy_device)` as a function of the
thread state: outside lazy mode it asserts the tensor is already lazy and
returns it; inside lazy mode it returns an already-lazy tensor unchanged
(warning, asserting its device carries no index) and wraps a non-lazy tensor
into a new LTC-backed tensor on `lazy_device` (warning). -/
def PrepareTensorForMetaKernel (st : ThreadState) (tensor : Tensor)
    (lazy_device : Device) : Except PrepErr (Tensor × Option PrepWarn) :=
  if ¬ in_lazy_mode st then
    if tensor.device.dtype = DeviceType.lazy then
      Except.ok (tensor, none)
    else
      Except.error PrepErr.internalAssert
  else if tensor.device.dtype = DeviceType.lazy then
    if tensor.device.index.isSome then
      Except.error PrepErr.internalAssert
    else
      Except.ok (tensor, some PrepWarn.skipMove)
  else
    Except.ok
      (CreateAtenFromLtcTensor_wrap tensor (atenDeviceToBackendDevice lazy_device),
       some PrepWarn.move)

/-- Claim C7: inside the mode, on a tensor that is not on the lazy device
type, `PrepareTensorForMetaKernel` returns a newly constructed deferred
tensor bound to the given device whose underlying payload is the input
tensor (and logs the move warning). -/
theorem prepare_wraps_ordinary (st : ThreadState) (t : Tensor) (d : Device)
    (h1 : in_lazy_mode st = true) (h2 : t.device.dtype ≠ DeviceType.lazy) :
    PrepareTensorForMetaKernel st t d
      = Except.ok (Tensor.deferredOf t d, some PrepWarn.move) := by
  simp [PrepareTensorForMetaKernel, h1, h2, CreateAtenFromLtcTensor_wrap,
    atenDeviceToBackendDevice]

/-- Witness for C7: a CPU tensor wrapped while inside the mode. -/
theorem prepare_wraps_ordinary_spot :
    PrepareTensorForMetaKernel ⟨1, true, false, false, false⟩
        (Tensor.eager 7 ⟨DeviceType.cpu, none⟩) ⟨DeviceType.lazy, none⟩
      = Except.ok (Tensor.deferredOf (Tensor.eager 7 ⟨DeviceType.cpu, none⟩)
          ⟨DeviceType.lazy, none⟩, some PrepWarn.move) :=
  prepare_wraps_ordinary ⟨1, true, false, false, false⟩
    (Tensor.eager 7 ⟨DeviceType.cpu, none⟩) ⟨DeviceType.lazy, none⟩
    (by decide) (by decide)

/-- Claim C8: inside the mode, on a tensor already on the lazy device type
with no explicit device index, `PrepareTensorForMetaKernel` only warns and
returns its input unchanged, and applying it twice in sequence yields the
same observable value both times (idempotence). -/
theorem prepare_idempotent_on_deferred (st : ThreadState) (t : Tensor)
    (d : Device) (h1 : in_lazy_mode st = true)
    (h2 : t.device.dtype = DeviceType.lazy) (h3 : t.device.index = none) :
    PrepareTensorForMetaKernel st t d = Except.ok (t, some PrepWarn.skipMove)
    ∧ (PrepareTensorForMetaKernel st t d >>= fun r =>
        PrepareTensorForMetaKernel st r.1 d)
      = Except.ok (t, some PrepWarn.skipMove) := by
  have hone : PrepareTensorForMetaKernel st t d
      = Except.ok (t, some PrepWarn.skipMove) := by
    simp [PrepareTensorForMetaKernel, h1, h2, h3]
  exact ⟨hone, by rw [hone]; simp [Bind.bind, Except.bind, hone]⟩

/-- Witness for C8: an already-lazy tensor inside the mode. -/
theorem prepare_idempotent_on_deferred_spot :
    PrepareTensorForMetaKernel ⟨1, true, false, false, false⟩
        (Tensor.deferredOf (Tensor.eager 7 ⟨DeviceType.cpu, none⟩)
          ⟨DeviceType.lazy, none⟩) ⟨DeviceType.lazy, none⟩
      = Except.ok (Tensor.deferredOf (Tensor.eager 7 ⟨DeviceType.cpu, none⟩)
          ⟨DeviceType.lazy, none⟩, some PrepWarn.skipMove)
    ∧ (PrepareTensorForMetaKernel ⟨1, true, false, false, false⟩
        (Tensor.deferredOf (Tensor.eager 7 ⟨DeviceType.cpu, none⟩)
          ⟨DeviceType.lazy, none⟩) ⟨DeviceType.lazy, none⟩ >>= fun r =>
        PrepareTensorForMetaKernel ⟨1, true, false, false, false⟩ r.1
          ⟨DeviceType.lazy, none⟩)
      = Except.ok (Tensor.deferredOf (Tensor.eager 7 ⟨DeviceType.cpu, none⟩)
          ⟨DeviceType.lazy, none⟩, some PrepWarn.skipMove) :=
  prepare_idempotent_on_deferred ⟨1, true, false, false, false⟩
    (Tensor.deferredOf (Tensor.eager 7 ⟨DeviceType.cpu, none⟩)
      ⟨DeviceType.lazy, none⟩) ⟨DeviceType.lazy, none⟩
    (by decide) (by decide) (by decide)

/-- Claim C9: whenever `PrepareTensorForMetaKernel` returns without a fatal
assertion, the returned tensor is on the lazy device type — in all three
cases (outside the mode, inside on an already-lazy tensor, inside on an
ordinary tensor). -/
theorem prepare_returns_lazy_device (st : ThreadState) (t : Tensor)
    (d : Device) (t1 : Tensor) (w : Option PrepWarn)
    (h : PrepareTensorForMetaKernel st t d = Except.ok (t1, w)) :
    t1.device.dtype = DeviceType.lazy := by
  by_cases hm : in_lazy_mode st = true
  · by_cases hl : t.device.dtype = DeviceType.lazy
    · by_cases hi : t.device.index.isSome <;>
        simp [PrepareTensorForMetaKernel, hm, hl, hi] at h
      obtain ⟨h1, h2⟩ := h
      subst h1
      exact hl
    · simp [PrepareTensorForMetaKernel, hm, hl, CreateAtenFromLtcTensor_wrap] at h
      obtain ⟨h1, h2⟩ := h
      subst h1
      simp [Tensor.device, atenDeviceToBackendDevice]
  · have hm0 : in_lazy_mode st = false := by simpa using hm
    by_cases hl : t.device.dtype = DeviceType.lazy <;>
      simp [PrepareTensorForMetaKernel, hm0, hl] at h
    obtain ⟨h1, h2⟩ := h
    subst h1
    exact hl

/-- Witness for C9 at the outside-the-mode case on an already-lazy tensor. -/
theorem prepare_returns_lazy_device_spot :
    (Tensor.deferredOf (Tensor.eager 7 ⟨DeviceType.cpu, none⟩)
      ⟨DeviceType.lazy, none⟩).device.dtype = DeviceType.lazy :=
  prepare_returns_lazy_device initState
    (Tensor.deferredOf (Tensor.eager 7 ⟨DeviceType.cpu, none⟩)
      ⟨DeviceType.lazy, none⟩) ⟨DeviceType.lazy, none⟩
    (Tensor.deferredOf (Tensor.eager 7 ⟨DeviceType.cpu, none⟩)
      ⟨DeviceType.lazy, none⟩) none rfl

/-- The operand stack of a boxed call (`torch::jit::Stack`). -/
abbrev Stack := List Tensor

/-- Observable actions of `unlazy_handler`.  `eagerFellBack tls stack` records
the call `ts_eager_fallback(op, stack, ...)` together with the TLS state in
force during that call; `redispatched k stack` records
`op.redispatchBoxed(DispatchKeySet(k), stack)`. -/
inductive HEvent where
  | warned (insideMode : Bool)
  | redispatched (k : DispatchKey) (stack : Stack)
  | eagerFellBack (tlsDuring : ThreadState) (stack : Stack)
  deriving DecidableEq, Repr

/-- `unlazy_handler(op, stack)`.  The two external calls are parameters:
`redispatchBoxed` is what the Lazy kernel the operator redispatches to does
to the stack, and `ts_eager_fallback` is the eager-fallback adapter, which
observes the TLS state and may fail (its failures propagate out of the
handler).  The `ExcludeDispatchKeyGuard` is modelled by setting the excluded
bit of `GetUnlazyDispatchKey` before the fallback call and restoring the
saved bit afterwards on every path, also when the fallback fails. -/
def unlazy_handler (redispatchBoxed : Stack → Stack)
    (ts_eager_fallback : ThreadState → Stack → Except Nat Stack)
    (st : ThreadState) (stack : Stack) :
    Except Nat Stack × ThreadState × List HEvent :=
  if in_lazy_mode st then
    (Except.ok (redispatchBoxed stack), st,
     [HEvent.warned true, HEvent.redispatched DispatchKey.Lazy stack])
  else
    let saved := st.unlazyExcluded
    let stGuard := tls_set_dispatch_key_excluded st GetUnlazyDispatchKey true
    let r := ts_eager_fallback stGuard stack
    let stAfter := tls_set_dispatch_key_excluded stGuard GetUnlazyDispatchKey saved
    (r, stAfter, [HEvent.warned false, HEvent.eagerFellBack stGuard stack])

/-- Claim C5: when the handler fires while the thread is inside the mode, it
warns and redispatches the same operand stack onto the Lazy dispatch path,
leaves the thread state unchanged, and performs no eager fallback (no
materialization). -/
theorem handler_inside_mode (redispatchBoxed : Stack → Stack)
    (ts_eager_fallback : ThreadState → Stack → Except Nat Stack)
    (st : ThreadState) (stack : Stack) (h : in_lazy_mode st = true) :
    unlazy_handler redispatchBoxed ts_eager_fallback st stack
      = (Except.ok (redispatchBoxed stack), st,
         [HEvent.warned true, HEvent.redispatched DispatchKey.Lazy stack]) := by
  simp [unlazy_handler, h]

/-- Witness for C5 at depth 1 with a one-tensor stack. -/
theorem handler_inside_mode_spot :
    unlazy_handler id (fun _ s => Except.ok s) ⟨1, true, false, false, false⟩
        [Tensor.eager 7 ⟨DeviceType.cpu, none⟩]
      = (Except.ok [Tensor.eager 7 ⟨DeviceType.cpu, none⟩],
         ⟨1, true, false, false, false⟩,
         [HEvent.warned true,
          HEvent.redispatched DispatchKey.Lazy [Tensor.eager 7 ⟨DeviceType.cpu, none⟩]]) :=
  handler_inside_mode id (fun _ s => Except.ok s) ⟨1, true, false, false, false⟩
    [Tensor.eager 7 ⟨DeviceType.cpu, none⟩] (by decide)

/-- Claim C6: when the handler fires while the thread is outside the mode,
the eager fallback is invoked with the unlazy dispatch key excluded in TLS
for the whole call, the handler's result is exactly the fallback's result
(so fallback errors propagate), and on every exit path — the fallback
succeeding or failing — the exclusion bit is restored to its previous
value. -/
theorem handler_outside_mode_exclusion (redispatchBoxed : Stack → Stack)
    (ts_eager_fallback : ThreadState → Stack → Except Nat Stack)
    (st : ThreadState) (stack : Stack) (h : in_lazy_mode st = false) :
    ∃ stGuard : ThreadState,
      (unlazy_handler redispatchBoxed ts_eager_fallback st stack).2.2
        = [HEvent.warned false, HEvent.eagerFellBack stGuard stack]
      ∧ stGuard.unlazyExcluded = true
      ∧ (unlazy_handler redispatchBoxed ts_eager_fallback st stack).1
        = ts_eager_fallback stGuard stack
      ∧ (unlazy_handler redispatchBoxed ts_eager_fallback st stack).2.1.unlazyExcluded
        = st.unlazyExcluded := by
  refine ⟨tls_set_dispatch_key_excluded st GetUnlazyDispatchKey true, ?_, ?_, ?_, ?_⟩ <;>
    simp [unlazy_handler, h, tls_set_dispatch_key_excluded, GetUnlazyDispatchKey]

/-- Witness for C6 outside the mode with a fallback that fails. -/
theorem handler_outside_mode_exclusion_spot :
    ∃ stGuard : ThreadState,
      (unlazy_handler id (fun _ _ => Except.error 3) initState
          [Tensor.eager 7 ⟨DeviceType.cpu, none⟩]).2.2
        = [HEvent.warned false,
           HEvent.eagerFellBack stGuard [Tensor.eager 7 ⟨DeviceType.cpu, none⟩]]
      ∧ stGuard.unlazyExcluded = true
      ∧ (unlazy_handler id (fun _ _ => Except.error 3) initState
          [Tensor.eager 7 ⟨DeviceType.cpu, none⟩]).1
        = (fun (_ : ThreadState) (_ : Stack) =>
              (Except.error 3 : Except Nat Stack)) stGuard
            [Tensor.eager 7 ⟨DeviceType.cpu, none⟩]
      ∧ (unlazy_handler id (fun _ _ => Except.error 3) initState
          [Tensor.eager 7 ⟨DeviceType.cpu, none⟩]).2.1.unlazyExcluded
        = initState.unlazyExcluded :=
  handler_outside_mode_exclusion id (fun _ _ => Except.error 3) initState
    [Tensor.eager 7 ⟨DeviceType.cpu, none⟩] (by decide)

end TorchLazy
